import Mathlib

/-!
# Verification of the `Lab_instruments` channel safety interlock

Shallow embedding of `src/Lab_instruments.py`.  Each Python wrapper class
becomes a Lean structure holding its mutable state (the per-channel `safety`
flag list); each method becomes a pure function from state and arguments to
an `Outcome`: the Python return value (or raised exception), the new state,
the list of commands successfully written to the transport, and the warnings
emitted via `warnings.warn`.

The pyvisa transport is modelled by a schedule `tok : Nat → Bool` deciding
whether the k-th `device.write` of a call succeeds; a failed write raises a
`transportError` that propagates (mutations performed before the raise
persist, those after it do not — exactly Python's semantics).

Python `float` values are modelled as `Rat`; `str(x)` on them is modelled by
`ratStr` (a fixed injective rendering); `str` on an `int` channel is
`toString`.  Python list subscripts follow Python semantics: negative
indices count from the end, fully out-of-range indices raise `IndexError`
(`pyIdx`/`pyGet`/`pySet` below).
-/

/-- Python list index resolution: `0 ≤ i < len` is itself, `-len ≤ i < 0`
counts from the end, anything else is out of range (`none` = IndexError). -/
def pyIdx (len : Nat) (i : Int) : Option Nat :=
  if 0 ≤ i then
    if i < (len : Int) then some i.toNat else none
  else
    if -(len : Int) ≤ i then some (i + len).toNat else none

/-- Python `xs[i]` for reading. -/
def pyGet {α : Type} (xs : List α) (i : Int) : Option α :=
  (pyIdx xs.length i).bind fun k => xs.get? k

/-- Python `xs[i] = v`. -/
def pySet {α : Type} (xs : List α) (i : Int) (v : α) : Option (List α) :=
  (pyIdx xs.length i).map fun k => xs.set k v

/-- Model of `str()` applied to a Python float (modelled as `Rat`). -/
def ratStr (q : Rat) : String := toString q

/-- Exceptions the embedded code can raise. -/
inductive PyExc
  | transportError (k : Nat)
  | indexError
  | keyError
deriving DecidableEq, Repr

/-- Python values returned by the embedded methods: `None`, an `int`
(`-1` is the rejection sentinel), or whatever `device.write` returned
(opaque, tagged with the write's position in the call). -/
inductive Ret
  | pyNone
  | pyInt (n : Int)
  | writeResult (k : Nat)
deriving DecidableEq, Repr

/-- A method call either returns a value or raises. -/
inductive PyResult
  | ok (r : Ret)
  | exc (e : PyExc)
deriving DecidableEq, Repr

/-- Everything observable about one method call: result, post-state,
commands successfully written to the transport (in order), warnings. -/
structure Outcome (σ : Type) where
  result : PyResult
  state : σ
  sent : List String
  warns : List String
deriving DecidableEq, Repr

/-- Send `cmds` in order starting at write position `k`; returns the
successfully written prefix and, if the schedule fails some write, the
position of the first failing write. -/
def sendAll (tok : Nat → Bool) : Nat → List String → List String × Option Nat
  | _, [] => ([], none)
  | k, c :: cs =>
    if tok k then
      let r := sendAll tok (k + 1) cs
      (c :: r.1, r.2)
    else
      ([], some k)

/-- The all-successful transport schedule. -/
def tokAll : Nat → Bool := fun _ => true

/-! ## KEI2230G — 3-channel DC power supply -/

/-- Mutable state of a `KEI2230G` object: the `self.safety` list. -/
structure KEI2230G where
  safety : List Nat
deriving DecidableEq, Repr

namespace KEI2230G

/-- `__init__`: `self.safety = [0, 0, 0]`. -/
def init : KEI2230G := ⟨[0, 0, 0]⟩

/-- Warning text of the unarmed guard in `set_voltage` / `set_current`. -/
def warnMsg : String :=
  "Maximum voltage is not set. Run set_voltage_limit first to protect your circuit"

/-- `set_output_state(self, ONorOFF)`: one write, no channel, no guard. -/
def set_output_state (tok : Nat → Bool) (s : KEI2230G) (onoroff : String) :
    Outcome KEI2230G :=
  match sendAll tok 0 ["OUTP " ++ onoroff] with
  | (sent, none) => ⟨.ok .pyNone, s, sent, []⟩
  | (sent, some k) => ⟨.exc (.transportError k), s, sent, []⟩

/-- `set_voltage(self, channel, voltage, unit='mV')`. -/
def set_voltage (tok : Nat → Bool) (s : KEI2230G) (channel : Int)
    (voltage : Rat) (unit : String) : Outcome KEI2230G :=
  match pyGet s.safety (channel - 1) with
  | none => ⟨.exc .indexError, s, [], []⟩
  | some flag =>
    if flag = 0 then
      ⟨.ok (.pyInt (-1)), s, [], [warnMsg]⟩
    else
      match sendAll tok 0
          ["INSTrument:NSELect " ++ toString channel,
           "SOURce" ++ ":VOLTage:LEVel:IMMediate:AMPLitude " ++ ratStr voltage ++ unit] with
      | (sent, none) => ⟨.ok .pyNone, s, sent, []⟩
      | (sent, some k) => ⟨.exc (.transportError k), s, sent, []⟩

/-- `set_current(self, channel, current, unit='mA')`. -/
def set_current (tok : Nat → Bool) (s : KEI2230G) (channel : Int)
    (current : Rat) (unit : String) : Outcome KEI2230G :=
  match pyGet s.safety (channel - 1) with
  | none => ⟨.exc .indexError, s, [], []⟩
  | some flag =>
    if flag = 0 then
      ⟨.ok (.pyInt (-1)), s, [], [warnMsg]⟩
    else
      match sendAll tok 0
          ["INSTrument:NSELect " ++ toString channel,
           "SOURce" ++ ":CURRent:LEVel:IMMediate:AMPLitude " ++ ratStr current ++ unit] with
      | (sent, none) => ⟨.ok .pyNone, s, sent, []⟩
      | (sent, some k) => ⟨.exc (.transportError k), s, sent, []⟩

/-- `set_voltage_limit(self, channel, voltage_lim)`: two writes, then
`self.safety[channel - 1] = 1` (so an out-of-range channel raises only
AFTER the commands were sent, and a failed write leaves the flag unset). -/
def set_voltage_limit (tok : Nat → Bool) (s : KEI2230G) (channel : Int)
    (voltage_lim : Rat) : Outcome KEI2230G :=
  match sendAll tok 0
      ["INSTrument:NSELect " ++ toString channel,
       "SOURce:VOLTage:LIMit:LEVel " ++ ratStr voltage_lim] with
  | (sent, some k) => ⟨.exc (.transportError k), s, sent, []⟩
  | (sent, none) =>
    match pySet s.safety (channel - 1) 1 with
    | none => ⟨.exc .indexError, s, sent, []⟩
    | some safety1 => ⟨.ok .pyNone, ⟨safety1⟩, sent, []⟩

end KEI2230G

/-! ## KEI2600B — 2-channel source-measure unit -/

/-- Mutable state of a `KEI2600B` object: the `self.safety` list. -/
structure KEI2600B where
  safety : List Nat
deriving DecidableEq, Repr

namespace KEI2600B

/-- `__init__`: `self.safety = [0, 0]`. -/
def init : KEI2600B := ⟨[0, 0]⟩

/-- `self.ch_map = {1: 'a', 2: 'b'}`; `none` = KeyError on lookup. -/
def ch_map (c : Int) : Option String :=
  if c = 1 then some "a" else if c = 2 then some "b" else none

/-- Warning text of the unarmed guard in `set_voltage` / `set_current`. -/
def warnMsg : String :=
  "Compliance limit for this channel is not set. Run set_limit first to protect your circuit"

/-- `set_output_state(self, channel, ONorOFF)`: `ch_map` lookup (KeyError on
a bad channel), then one write.  Not gated by the interlock. -/
def set_output_state (tok : Nat → Bool) (s : KEI2600B) (channel : Int)
    (onoroff : String) : Outcome KEI2600B :=
  match ch_map channel with
  | none => ⟨.exc .keyError, s, [], []⟩
  | some m =>
    let sc := "smu" ++ m
    match sendAll tok 0 [sc ++ ".source.output=" ++ sc ++ ".OUTPUT_" ++ onoroff] with
    | (sent, none) => ⟨.ok .pyNone, s, sent, []⟩
    | (sent, some k) => ⟨.exc (.transportError k), s, sent, []⟩

/-- `set_voltage(self, channel, voltage)`: the guard reads
`self.safety[channel - 1]` BEFORE the `ch_map` lookup. -/
def set_voltage (tok : Nat → Bool) (s : KEI2600B) (channel : Int)
    (voltage : Rat) : Outcome KEI2600B :=
  match pyGet s.safety (channel - 1) with
  | none => ⟨.exc .indexError, s, [], []⟩
  | some flag =>
    if flag = 0 then
      ⟨.ok (.pyInt (-1)), s, [], [warnMsg]⟩
    else
      match ch_map channel with
      | none => ⟨.exc .keyError, s, [], []⟩
      | some m =>
        let sc := "smu" ++ m
        match sendAll tok 0
            [sc ++ ".source.func = " ++ sc ++ ".OUTPUT_DCVOLTS",
             sc ++ ".source.levelv = " ++ ratStr voltage,
             "display." ++ sc ++ ".measure.func = display.MEASURE_DCAMPS"] with
        | (sent, none) => ⟨.ok .pyNone, s, sent, []⟩
        | (sent, some k) => ⟨.exc (.transportError k), s, sent, []⟩

/-- `set_current(self, channel, current)`. -/
def set_current (tok : Nat → Bool) (s : KEI2600B) (channel : Int)
    (current : Rat) : Outcome KEI2600B :=
  match pyGet s.safety (channel - 1) with
  | none => ⟨.exc .indexError, s, [], []⟩
  | some flag =>
    if flag = 0 then
      ⟨.ok (.pyInt (-1)), s, [], [warnMsg]⟩
    else
      match ch_map channel with
      | none => ⟨.exc .keyError, s, [], []⟩
      | some m =>
        let sc := "smu" ++ m
        match sendAll tok 0
            [sc ++ ".source.func = " ++ sc ++ ".OUTPUT_DCAMPS",
             sc ++ ".source.leveli = " ++ ratStr current,
             "display." ++ sc ++ ".measure.func = display.MEASURE_DCVOLTS"] with
        | (sent, none) => ⟨.ok .pyNone, s, sent, []⟩
        | (sent, some k) => ⟨.exc (.transportError k), s, sent, []⟩

/-- `set_limit(self, channel, vol_lim, cur_lim)`: `ch_map` lookup, two
writes, then `self.safety[channel - 1] = 1`. -/
def set_limit (tok : Nat → Bool) (s : KEI2600B) (channel : Int)
    (vol_lim cur_lim : Rat) : Outcome KEI2600B :=
  match ch_map channel with
  | none => ⟨.exc .keyError, s, [], []⟩
  | some m =>
    let sc := "smu" ++ m
    match sendAll tok 0
        [sc ++ ".source.limitv = " ++ ratStr vol_lim,
         sc ++ ".source.limiti = " ++ ratStr cur_lim] with
    | (sent, some k) => ⟨.exc (.transportError k), s, sent, []⟩
    | (sent, none) =>
      match pySet s.safety (channel - 1) 1 with
      | none => ⟨.exc .indexError, s, sent, []⟩
      | some safety1 => ⟨.ok .pyNone, ⟨safety1⟩, sent, []⟩

end KEI2600B

/-! ## AFG3000 — 2-channel function generator

`__init__` only opens the device: the class holds NO per-channel safety
flags (no `self.safety` exists in the source), so its state is empty. -/

/-- Mutable state of an `AFG3000` object: none (no safety list in source). -/
structure AFG3000 where
deriving DecidableEq, Repr

namespace AFG3000

/-- `__init__`: no interlock state is created. -/
def init : AFG3000 := ⟨⟩

/-- Warning text of the amplitude range guard in `set_output_vpp`. -/
def vppWarnMsg : String :=
  "Amplitude exceeds safety boundary. Set another value of minV or maxV"

/-- Warning text of the offset range guard in `set_output_offset`. -/
def offsetWarnMsg : String :=
  "offset exceeds safety boundary. Set another value of minV or maxV"

/-- `set_output_state(self, channel, ONorOFF)`: one write, no guard. -/
def set_output_state (tok : Nat → Bool) (s : AFG3000) (channel : Int)
    (onoroff : String) : Outcome AFG3000 :=
  match sendAll tok 0 ["OUTPUT" ++ toString channel ++ ":STATE " ++ onoroff] with
  | (sent, none) => ⟨.ok .pyNone, s, sent, []⟩
  | (sent, some k) => ⟨.exc (.transportError k), s, sent, []⟩

/-- `set_output_vpp(self, channel, amplitude, minV=0, maxV=2.5)`: rejected
with `-1` when the amplitude is strictly outside `[minV, maxV]`, otherwise
one write whose return value is returned. -/
def set_output_vpp (tok : Nat → Bool) (s : AFG3000) (channel : Int)
    (amplitude minV maxV : Rat) : Outcome AFG3000 :=
  if amplitude > maxV ∨ amplitude < minV then
    ⟨.ok (.pyInt (-1)), s, [], [vppWarnMsg]⟩
  else
    match sendAll tok 0
        ["SOURce" ++ toString channel ++ ":VOLTage:LEVel:IMMediate:AMPLitude "
          ++ ratStr amplitude ++ "VPP"] with
    | (sent, none) => ⟨.ok (.writeResult 0), s, sent, []⟩
    | (sent, some k) => ⟨.exc (.transportError k), s, sent, []⟩

/-- `set_output_offset(self, channel, offset, minV=0, maxV=2.5)`. -/
def set_output_offset (tok : Nat → Bool) (s : AFG3000) (channel : Int)
    (offset minV maxV : Rat) : Outcome AFG3000 :=
  if offset > maxV ∨ offset < minV then
    ⟨.ok (.pyInt (-1)), s, [], [offsetWarnMsg]⟩
  else
    match sendAll tok 0
        ["SOURce" ++ toString channel ++ ":VOLTage:LEVel:IMMediate:OFFSet "
          ++ ratStr offset ++ "V"] with
    | (sent, none) => ⟨.ok (.writeResult 0), s, sent, []⟩
    | (sent, some k) => ⟨.exc (.transportError k), s, sent, []⟩

end AFG3000

/-! ## Basic lemmas about the embedding primitives -/

theorem sendAll_tokAll (k : Nat) (cmds : List String) :
    sendAll tokAll k cmds = (cmds, none) := by
  induction cmds generalizing k with
  | nil => rfl
  | cons c cs ih => simp [sendAll, tokAll, ih]

theorem pyIdx_lt {len : Nat} {i : Int} {k : Nat} (h : pyIdx len i = some k) :
    k < len := by
  unfold pyIdx at h
  split at h <;> split at h <;> simp_all <;> omega

theorem pyIdx_nonneg {len : Nat} {i : Int} (h0 : 0 ≤ i) (hl : i < (len : Int)) :
    pyIdx len i = some i.toNat := by
  unfold pyIdx
  simp [h0, hl]

theorem option_some_bind {α β : Type} (a : α) (f : α → Option β) :
    (some a).bind f = f a := rfl

theorem option_none_bind {α β : Type} (f : α → Option β) :
    (Option.none (α := α)).bind f = none := rfl

theorem pySet_eq_set {α : Type} {xs ys : List α} {i : Int} {v : α}
    (h : pySet xs i v = some ys) :
    ∃ k, pyIdx xs.length i = some k ∧ ys = xs.set k v := by
  rcases hk : pyIdx xs.length i with _ | k
  · have : pySet xs i v = none := by unfold pySet; rw [hk]; rfl
    rw [this] at h
    exact absurd h (by simp)
  · have heq : pySet xs i v = some (xs.set k v) := by unfold pySet; rw [hk]; rfl
    rw [heq] at h
    exact ⟨k, rfl, (Option.some_inj.mp h).symm⟩

theorem pySet_length {α : Type} {xs ys : List α} {i : Int} {v : α}
    (h : pySet xs i v = some ys) : ys.length = xs.length := by
  obtain ⟨k, _, hset⟩ := pySet_eq_set h
  simp [hset]

theorem pyGet_pySet_self {α : Type} {xs ys : List α} {i : Int} {v : α}
    (h : pySet xs i v = some ys) : pyGet ys i = some v := by
  obtain ⟨k, hk, hset⟩ := pySet_eq_set h
  have hlen : ys.length = xs.length := pySet_length h
  unfold pyGet
  rw [hlen, hk, option_some_bind]
  simp only [hset, List.get?_eq_getElem?]
  exact List.getElem?_set_eq_of_lt v (pyIdx_lt hk)

theorem pyIdx_of_nonneg {len : Nat} {i : Int} {k : Nat} (hi : 0 ≤ i)
    (h : pyIdx len i = some k) : k = i.toNat := by
  unfold pyIdx at h
  split at h <;> split at h <;> simp_all

theorem pyGet_pySet_ne {α : Type} {xs ys : List α} {i j : Int} {v : α}
    (hi : 0 ≤ i) (hj : 0 ≤ j) (hij : i ≠ j)
    (h : pySet xs i v = some ys) : pyGet ys j = pyGet xs j := by
  obtain ⟨k, hk, hset⟩ := pySet_eq_set h
  have hlen : ys.length = xs.length := pySet_length h
  unfold pyGet
  rw [hlen]
  rcases hk2 : pyIdx xs.length j with _ | k2
  · simp
  · have h1 : k = i.toNat := pyIdx_of_nonneg hi hk
    have h2 : k2 = j.toNat := pyIdx_of_nonneg hj hk2
    have hne : k ≠ k2 := by omega
    rw [option_some_bind, option_some_bind]
    simp only [hset, List.get?_eq_getElem?]
    rw [List.getElem?_set_ne hne]

/-- Did the call return normally (no exception)? -/
def Outcome.isOk {σ : Type} (o : Outcome σ) : Bool :=
  match o.result with
  | .ok _ => true
  | .exc _ => false

theorem pyGet_pySet_keeps_one {xs ys : List Nat} {i j : Int}
    (h : pySet xs i 1 = some ys) (hj : pyGet xs j = some 1) :
    pyGet ys j = some 1 := by
  obtain ⟨k, hk, hset⟩ := pySet_eq_set h
  have hlen : ys.length = xs.length := pySet_length h
  unfold pyGet at hj ⊢
  rw [hlen]
  rcases hk2 : pyIdx xs.length j with _ | k2
  · rw [hk2, option_none_bind] at hj
    exact absurd hj (by simp)
  · rw [hk2, option_some_bind] at hj
    rw [option_some_bind, hset, List.get?_eq_getElem?]
    by_cases hkk : k = k2
    · subst hkk
      exact List.getElem?_set_eq_of_lt 1 (pyIdx_lt hk)
    · rw [List.getElem?_set_ne hkk, ← List.get?_eq_getElem?]
      exact hj

/-! ## Per-method lemmas: KEI2230G -/

namespace KEI2230G

theorem set_output_state_state_2230 (tok : Nat → Bool) (s : KEI2230G) (o : String) :
    (set_output_state tok s o).state = s := by
  unfold set_output_state
  split <;> rfl

theorem set_voltage_state_2230 (tok : Nat → Bool) (s : KEI2230G) (c : Int)
    (v : Rat) (u : String) : (set_voltage tok s c v u).state = s := by
  unfold set_voltage
  split
  · rfl
  · split
    · rfl
    · split <;> rfl

theorem set_current_state_2230 (tok : Nat → Bool) (s : KEI2230G) (c : Int)
    (v : Rat) (u : String) : (set_current tok s c v u).state = s := by
  unfold set_current
  split
  · rfl
  · split
    · rfl
    · split <;> rfl

theorem set_voltage_unarmed_2230 (tok : Nat → Bool) (s : KEI2230G) (c : Int)
    (v : Rat) (u : String) (h : pyGet s.safety (c - 1) = some 0) :
    set_voltage tok s c v u = ⟨.ok (.pyInt (-1)), s, [], [warnMsg]⟩ := by
  simp [set_voltage, h]

theorem set_current_unarmed_2230 (tok : Nat → Bool) (s : KEI2230G) (c : Int)
    (v : Rat) (u : String) (h : pyGet s.safety (c - 1) = some 0) :
    set_current tok s c v u = ⟨.ok (.pyInt (-1)), s, [], [warnMsg]⟩ := by
  simp [set_current, h]

theorem set_voltage_armed_2230 (s : KEI2230G) (c : Int) (v : Rat) (u : String)
    (h : pyGet s.safety (c - 1) = some 1) :
    set_voltage tokAll s c v u =
      ⟨.ok .pyNone, s,
        ["INSTrument:NSELect " ++ toString c,
         "SOURce" ++ ":VOLTage:LEVel:IMMediate:AMPLitude " ++ ratStr v ++ u], []⟩ := by
  simp [set_voltage, h, sendAll_tokAll]

theorem set_current_armed_2230 (s : KEI2230G) (c : Int) (v : Rat) (u : String)
    (h : pyGet s.safety (c - 1) = some 1) :
    set_current tokAll s c v u =
      ⟨.ok .pyNone, s,
        ["INSTrument:NSELect " ++ toString c,
         "SOURce" ++ ":CURRent:LEVel:IMMediate:AMPLitude " ++ ratStr v ++ u], []⟩ := by
  simp [set_current, h, sendAll_tokAll]

/-- Either `set_voltage_limit` raises (state unchanged), or it succeeded and
the new safety list is the old one with the channel's flag set to 1. -/
theorem set_voltage_limit_cases (tok : Nat → Bool) (s : KEI2230G) (c : Int)
    (v : Rat) :
    ((set_voltage_limit tok s c v).state = s ∧
      (set_voltage_limit tok s c v).isOk = false) ∨
    (pySet s.safety (c - 1) 1 = some (set_voltage_limit tok s c v).state.safety ∧
      (set_voltage_limit tok s c v).result = .ok .pyNone) := by
  rcases hs : sendAll tok 0
      ["INSTrument:NSELect " ++ toString c,
       "SOURce:VOLTage:LIMit:LEVel " ++ ratStr v] with ⟨sent, ro⟩
  rcases ro with _ | k
  · rcases hp : pySet s.safety (c - 1) 1 with _ | ys
    · left
      constructor <;> simp [set_voltage_limit, hs, hp, Outcome.isOk]
    · right
      simp [set_voltage_limit, hs, hp]
  · left
    constructor <;> simp [set_voltage_limit, hs, Outcome.isOk]

/-- `set_voltage_limit` with an all-successful transport and a resolvable
channel index: both limit commands are written, then the flag is set. -/
theorem set_voltage_limit_tokAll (s : KEI2230G) (c : Int) (v : Rat)
    (ys : List Nat) (hp : pySet s.safety (c - 1) 1 = some ys) :
    set_voltage_limit tokAll s c v =
      ⟨.ok .pyNone, ⟨ys⟩,
        ["INSTrument:NSELect " ++ toString c,
         "SOURce:VOLTage:LIMit:LEVel " ++ ratStr v], []⟩ := by
  simp [set_voltage_limit, sendAll_tokAll, hp]

end KEI2230G

/-! ## Per-method lemmas: KEI2600B -/

namespace KEI2600B

theorem set_output_state_state_2600 (tok : Nat → Bool) (s : KEI2600B) (c : Int)
    (o : String) : (set_output_state tok s c o).state = s := by
  unfold set_output_state
  split
  · rfl
  · dsimp only
    split <;> rfl

theorem set_voltage_state_2600 (tok : Nat → Bool) (s : KEI2600B) (c : Int)
    (v : Rat) : (set_voltage tok s c v).state = s := by
  unfold set_voltage
  split
  · rfl
  · split
    · rfl
    · split
      · rfl
      · dsimp only
        split <;> rfl

theorem set_current_state_2600 (tok : Nat → Bool) (s : KEI2600B) (c : Int)
    (v : Rat) : (set_current tok s c v).state = s := by
  unfold set_current
  split
  · rfl
  · split
    · rfl
    · split
      · rfl
      · dsimp only
        split <;> rfl

theorem set_voltage_unarmed_2600 (tok : Nat → Bool) (s : KEI2600B) (c : Int)
    (v : Rat) (h : pyGet s.safety (c - 1) = some 0) :
    set_voltage tok s c v = ⟨.ok (.pyInt (-1)), s, [], [warnMsg]⟩ := by
  simp [set_voltage, h]

theorem set_current_unarmed_2600 (tok : Nat → Bool) (s : KEI2600B) (c : Int)
    (v : Rat) (h : pyGet s.safety (c - 1) = some 0) :
    set_current tok s c v = ⟨.ok (.pyInt (-1)), s, [], [warnMsg]⟩ := by
  simp [set_current, h]

theorem set_voltage_armed_2600 (s : KEI2600B) (c : Int) (v : Rat) {m : String}
    (h : pyGet s.safety (c - 1) = some 1) (hm : ch_map c = some m) :
    set_voltage tokAll s c v =
      ⟨.ok .pyNone, s,
        ["smu" ++ m ++ ".source.func = " ++ ("smu" ++ m) ++ ".OUTPUT_DCVOLTS",
         "smu" ++ m ++ ".source.levelv = " ++ ratStr v,
         "display." ++ ("smu" ++ m) ++ ".measure.func = display.MEASURE_DCAMPS"],
        []⟩ := by
  simp [set_voltage, h, hm, sendAll_tokAll]

theorem set_current_armed_2600 (s : KEI2600B) (c : Int) (v : Rat) {m : String}
    (h : pyGet s.safety (c - 1) = some 1) (hm : ch_map c = some m) :
    set_current tokAll s c v =
      ⟨.ok .pyNone, s,
        ["smu" ++ m ++ ".source.func = " ++ ("smu" ++ m) ++ ".OUTPUT_DCAMPS",
         "smu" ++ m ++ ".source.leveli = " ++ ratStr v,
         "display." ++ ("smu" ++ m) ++ ".measure.func = display.MEASURE_DCVOLTS"],
        []⟩ := by
  simp [set_current, h, hm, sendAll_tokAll]

/-- Either `set_limit` raises (state unchanged), or it succeeded and the new
safety list is the old one with the channel's flag set to 1. -/
theorem set_limit_cases (tok : Nat → Bool) (s : KEI2600B) (c : Int)
    (vl cl : Rat) :
    ((set_limit tok s c vl cl).state = s ∧
      (set_limit tok s c vl cl).isOk = false) ∨
    (pySet s.safety (c - 1) 1 = some (set_limit tok s c vl cl).state.safety ∧
      (set_limit tok s c vl cl).result = .ok .pyNone) := by
  rcases hm : ch_map c with _ | m
  · left
    constructor <;> simp [set_limit, hm, Outcome.isOk]
  · rcases hs : sendAll tok 0
        ["smu" ++ m ++ ".source.limitv = " ++ ratStr vl,
         "smu" ++ m ++ ".source.limiti = " ++ ratStr cl] with ⟨sent, ro⟩
    rcases ro with _ | k
    · rcases hp : pySet s.safety (c - 1) 1 with _ | ys
      · left
        constructor <;> simp [set_limit, hm, hs, hp, Outcome.isOk]
      · right
        simp [set_limit, hm, hs, hp]
    · left
      constructor <;> simp [set_limit, hm, hs, Outcome.isOk]

/-- `set_limit` with an all-successful transport and a resolvable channel:
both limit commands are written, then the flag is set. -/
theorem set_limit_tokAll (s : KEI2600B) (c : Int) (vl cl : Rat) {m : String}
    (ys : List Nat) (hm : ch_map c = some m)
    (hp : pySet s.safety (c - 1) 1 = some ys) :
    set_limit tokAll s c vl cl =
      ⟨.ok .pyNone, ⟨ys⟩,
        ["smu" ++ m ++ ".source.limitv = " ++ ratStr vl,
         "smu" ++ m ++ ".source.limiti = " ++ ratStr cl], []⟩ := by
  simp [set_limit, hm, sendAll_tokAll, hp]

end KEI2600B

/-! ## Per-method lemmas: AFG3000 -/

namespace AFG3000

theorem set_output_state_tokAll (s : AFG3000) (c : Int) (o : String) :
    set_output_state tokAll s c o =
      ⟨.ok .pyNone, s, ["OUTPUT" ++ toString c ++ ":STATE " ++ o], []⟩ := by
  simp [set_output_state, sendAll_tokAll]

theorem set_output_vpp_rejected (tok : Nat → Bool) (s : AFG3000) (c : Int)
    (a minV maxV : Rat) (h : a > maxV ∨ a < minV) :
    set_output_vpp tok s c a minV maxV =
      ⟨.ok (.pyInt (-1)), s, [], [vppWarnMsg]⟩ := by
  simp only [set_output_vpp, if_pos h]

theorem set_output_vpp_sent (s : AFG3000) (c : Int) (a minV maxV : Rat)
    (h1 : minV ≤ a) (h2 : a ≤ maxV) :
    set_output_vpp tokAll s c a minV maxV =
      ⟨.ok (.writeResult 0), s,
        ["SOURce" ++ toString c ++ ":VOLTage:LEVel:IMMediate:AMPLitude "
          ++ ratStr a ++ "VPP"], []⟩ := by
  have hng : ¬(a > maxV ∨ a < minV) := by
    push_neg
    exact ⟨h2, h1⟩
  simp only [set_output_vpp, if_neg hng, sendAll_tokAll]

theorem set_output_offset_rejected (tok : Nat → Bool) (s : AFG3000) (c : Int)
    (a minV maxV : Rat) (h : a > maxV ∨ a < minV) :
    set_output_offset tok s c a minV maxV =
      ⟨.ok (.pyInt (-1)), s, [], [offsetWarnMsg]⟩ := by
  simp only [set_output_offset, if_pos h]

theorem set_output_offset_sent (s : AFG3000) (c : Int) (a minV maxV : Rat)
    (h1 : minV ≤ a) (h2 : a ≤ maxV) :
    set_output_offset tokAll s c a minV maxV =
      ⟨.ok (.writeResult 0), s,
        ["SOURce" ++ toString c ++ ":VOLTage:LEVel:IMMediate:OFFSet "
          ++ ratStr a ++ "V"], []⟩ := by
  have hng : ¬(a > maxV ∨ a < minV) := by
    push_neg
    exact ⟨h2, h1⟩
  simp only [set_output_offset, if_neg hng, sendAll_tokAll]

end AFG3000

/-! ## Execution traces

For the interlock invariant (the flag is set iff a limit-setting call
succeeded at least once since construction) we close the two interlocked
wrappers under arbitrary sequences of method calls. -/

/-- One method invocation on a `KEI2230G` object, transport schedule included. -/
inductive Op2230
  | outputState (tok : Nat → Bool) (onoroff : String)
  | setVoltage (tok : Nat → Bool) (c : Int) (v : Rat) (u : String)
  | setCurrent (tok : Nat → Bool) (c : Int) (v : Rat) (u : String)
  | setVoltageLimit (tok : Nat → Bool) (c : Int) (v : Rat)

/-- Execute one operation. -/
def Op2230.apply (s : KEI2230G) : Op2230 → Outcome KEI2230G
  | .outputState tok o => KEI2230G.set_output_state tok s o
  | .setVoltage tok c v u => KEI2230G.set_voltage tok s c v u
  | .setCurrent tok c v u => KEI2230G.set_current tok s c v u
  | .setVoltageLimit tok c v => KEI2230G.set_voltage_limit tok s c v

/-- The channel an operation mentions is a valid channel (1..3). -/
def Op2230.validCh : Op2230 → Prop
  | .outputState _ _ => True
  | .setVoltage _ c _ _ => 1 ≤ c ∧ c ≤ 3
  | .setCurrent _ c _ _ => 1 ≤ c ∧ c ≤ 3
  | .setVoltageLimit _ c _ => 1 ≤ c ∧ c ≤ 3

/-- Run a sequence of operations, threading the state. -/
def run2230 (s : KEI2230G) : List Op2230 → KEI2230G
  | [] => s
  | op :: ops => run2230 (op.apply s).state ops

/-- Does `op`, applied in state `s`, successfully issue a limit-setting
operation for channel `c`? -/
def Op2230.arms (c : Int) (s : KEI2230G) : Op2230 → Bool
  | .setVoltageLimit tok c' v =>
      c' == c && (KEI2230G.set_voltage_limit tok s c' v).isOk
  | _ => false

/-- Does some operation of the sequence, run from `s`, successfully issue a
limit-setting operation for channel `c`? -/
def armsAlong2230 (c : Int) (s : KEI2230G) : List Op2230 → Bool
  | [] => false
  | op :: ops => op.arms c s || armsAlong2230 c (op.apply s).state ops

/-- All operations of the sequence use valid channels. -/
def opsValid2230 : List Op2230 → Prop
  | [] => True
  | op :: ops => op.validCh ∧ opsValid2230 ops

/-- One method invocation on a `KEI2600B` object, transport schedule included. -/
inductive Op2600
  | outputState (tok : Nat → Bool) (c : Int) (onoroff : String)
  | setVoltage (tok : Nat → Bool) (c : Int) (v : Rat)
  | setCurrent (tok : Nat → Bool) (c : Int) (v : Rat)
  | setLimit (tok : Nat → Bool) (c : Int) (vl cl : Rat)

/-- Execute one operation. -/
def Op2600.apply (s : KEI2600B) : Op2600 → Outcome KEI2600B
  | .outputState tok c o => KEI2600B.set_output_state tok s c o
  | .setVoltage tok c v => KEI2600B.set_voltage tok s c v
  | .setCurrent tok c v => KEI2600B.set_current tok s c v
  | .setLimit tok c vl cl => KEI2600B.set_limit tok s c vl cl

/-- The channel an operation mentions is a valid channel (1..2). -/
def Op2600.validCh : Op2600 → Prop
  | .outputState _ c _ => 1 ≤ c ∧ c ≤ 2
  | .setVoltage _ c _ => 1 ≤ c ∧ c ≤ 2
  | .setCurrent _ c _ => 1 ≤ c ∧ c ≤ 2
  | .setLimit _ c _ _ => 1 ≤ c ∧ c ≤ 2

/-- Run a sequence of operations, threading the state. -/
def run2600 (s : KEI2600B) : List Op2600 → KEI2600B
  | [] => s
  | op :: ops => run2600 (op.apply s).state ops

/-- Does `op`, applied in state `s`, successfully issue a limit-setting
operation for channel `c`? -/
def Op2600.arms (c : Int) (s : KEI2600B) : Op2600 → Bool
  | .setLimit tok c' vl cl =>
      c' == c && (KEI2600B.set_limit tok s c' vl cl).isOk
  | _ => false

/-- Does some operation of the sequence, run from `s`, successfully issue a
limit-setting operation for channel `c`? -/
def armsAlong2600 (c : Int) (s : KEI2600B) : List Op2600 → Bool
  | [] => false
  | op :: ops => op.arms c s || armsAlong2600 c (op.apply s).state ops

/-- All operations of the sequence use valid channels. -/
def opsValid2600 : List Op2600 → Prop
  | [] => True
  | op :: ops => op.validCh ∧ opsValid2600 ops

/-- Interlock invariant, KEI2230G: running any valid operation sequence,
channel `c`'s flag is set in the final state iff it was set initially or
some operation of the sequence successfully issued `set_voltage_limit`
for `c`. -/
theorem run2230_armed_iff (c : Int) (hc1 : 1 ≤ c) (hc3 : c ≤ 3) :
    ∀ (ops : List Op2230) (s : KEI2230G), opsValid2230 ops →
      (pyGet (run2230 s ops).safety (c - 1) = some 1 ↔
        pyGet s.safety (c - 1) = some 1 ∨ armsAlong2230 c s ops = true) := by
  intro ops
  induction ops with
  | nil =>
    intro s _
    simp [run2230, armsAlong2230]
  | cons op ops ih =>
    intro s hv
    obtain ⟨hop, hops⟩ := hv
    rcases op with ⟨tok, o⟩ | ⟨tok, c', v, u⟩ | ⟨tok, c', v, u⟩ | ⟨tok, c', v⟩
    · simp only [run2230, armsAlong2230, Op2230.apply, Op2230.arms,
        KEI2230G.set_output_state_state_2230, Bool.false_or]
      exact ih s hops
    · simp only [run2230, armsAlong2230, Op2230.apply, Op2230.arms,
        KEI2230G.set_voltage_state_2230, Bool.false_or]
      exact ih s hops
    · simp only [run2230, armsAlong2230, Op2230.apply, Op2230.arms,
        KEI2230G.set_current_state_2230, Bool.false_or]
      exact ih s hops
    · obtain ⟨hc'1, hc'3⟩ := hop
      simp only [run2230, armsAlong2230, Op2230.apply, Op2230.arms]
      rcases KEI2230G.set_voltage_limit_cases tok s c' v with ⟨hst, hok⟩ | ⟨hp, hres⟩
      · rw [hst, hok]
        simp only [Bool.and_false, Bool.false_or]
        exact ih s hops
      · have hok : (KEI2230G.set_voltage_limit tok s c' v).isOk = true := by
          simp [Outcome.isOk, hres]
        rw [hok]
        simp only [Bool.and_true]
        rw [ih _ hops]
        by_cases hcc : c' = c
        · subst hcc
          have harm :
              pyGet (KEI2230G.set_voltage_limit tok s c' v).state.safety (c' - 1)
                = some 1 := pyGet_pySet_self hp
          simp [harm]
        · have hsame :
              pyGet (KEI2230G.set_voltage_limit tok s c' v).state.safety (c - 1)
                = pyGet s.safety (c - 1) :=
            pyGet_pySet_ne (by omega) (by omega) (by omega) hp
          have hbeq : (c' == c) = false := by
            simp [hcc]
          rw [hsame, hbeq]
          simp

/-- Interlock invariant, KEI2600B: same statement for the source-measure
unit (channels 1..2, limit-setting operation `set_limit`). -/
theorem run2600_armed_iff (c : Int) (hc1 : 1 ≤ c) (hc2 : c ≤ 2) :
    ∀ (ops : List Op2600) (s : KEI2600B), opsValid2600 ops →
      (pyGet (run2600 s ops).safety (c - 1) = some 1 ↔
        pyGet s.safety (c - 1) = some 1 ∨ armsAlong2600 c s ops = true) := by
  intro ops
  induction ops with
  | nil =>
    intro s _
    simp [run2600, armsAlong2600]
  | cons op ops ih =>
    intro s hv
    obtain ⟨hop, hops⟩ := hv
    rcases op with ⟨tok, c', o⟩ | ⟨tok, c', v⟩ | ⟨tok, c', v⟩ | ⟨tok, c', vl, cl⟩
    · simp only [run2600, armsAlong2600, Op2600.apply, Op2600.arms,
        KEI2600B.set_output_state_state_2600, Bool.false_or]
      exact ih s hops
    · simp only [run2600, armsAlong2600, Op2600.apply, Op2600.arms,
        KEI2600B.set_voltage_state_2600, Bool.false_or]
      exact ih s hops
    · simp only [run2600, armsAlong2600, Op2600.apply, Op2600.arms,
        KEI2600B.set_current_state_2600, Bool.false_or]
      exact ih s hops
    · obtain ⟨hc'1, hc'2⟩ := hop
      simp only [run2600, armsAlong2600, Op2600.apply, Op2600.arms]
      rcases KEI2600B.set_limit_cases tok s c' vl cl with ⟨hst, hok⟩ | ⟨hp, hres⟩
      · rw [hst, hok]
        simp only [Bool.and_false, Bool.false_or]
        exact ih s hops
      · have hok : (KEI2600B.set_limit tok s c' vl cl).isOk = true := by
          simp [Outcome.isOk, hres]
        rw [hok]
        simp only [Bool.and_true]
        rw [ih _ hops]
        by_cases hcc : c' = c
        · subst hcc
          have harm :
              pyGet (KEI2600B.set_limit tok s c' vl cl).state.safety (c' - 1)
                = some 1 := pyGet_pySet_self hp
          simp [harm]
        · have hsame :
              pyGet (KEI2600B.set_limit tok s c' vl cl).state.safety (c - 1)
                = pyGet s.safety (c - 1) :=
            pyGet_pySet_ne (by omega) (by omega) (by omega) hp
          have hbeq : (c' == c) = false := by
            simp [hcc]
          rw [hsame, hbeq]
          simp

instance (op : Op2230) : Decidable op.validCh :=
  match op with
  | .outputState _ _ => inferInstanceAs (Decidable True)
  | .setVoltage _ c _ _ => inferInstanceAs (Decidable (1 ≤ c ∧ c ≤ 3))
  | .setCurrent _ c _ _ => inferInstanceAs (Decidable (1 ≤ c ∧ c ≤ 3))
  | .setVoltageLimit _ c _ => inferInstanceAs (Decidable (1 ≤ c ∧ c ≤ 3))

instance opsValid2230Dec : (ops : List Op2230) → Decidable (opsValid2230 ops)
  | [] => .isTrue trivial
  | op :: ops =>
      @instDecidableAnd _ _ (inferInstanceAs (Decidable op.validCh))
        (opsValid2230Dec ops)

instance (op : Op2600) : Decidable op.validCh :=
  match op with
  | .outputState _ c _ => inferInstanceAs (Decidable (1 ≤ c ∧ c ≤ 2))
  | .setVoltage _ c _ => inferInstanceAs (Decidable (1 ≤ c ∧ c ≤ 2))
  | .setCurrent _ c _ => inferInstanceAs (Decidable (1 ≤ c ∧ c ≤ 2))
  | .setLimit _ c _ _ => inferInstanceAs (Decidable (1 ≤ c ∧ c ≤ 2))

instance opsValid2600Dec : (ops : List Op2600) → Decidable (opsValid2600 ops)
  | [] => .isTrue trivial
  | op :: ops =>
      @instDecidableAnd _ _ (inferInstanceAs (Decidable op.validCh))
        (opsValid2600Dec ops)

/-- A freshly constructed KEI2230G has every valid channel unarmed. -/
theorem init2230_flag (c : Int) (h1 : 1 ≤ c) (h3 : c ≤ 3) :
    pyGet KEI2230G.init.safety (c - 1) = some 0 := by
  interval_cases c <;> decide

/-- A freshly constructed KEI2600B has every valid channel unarmed. -/
theorem init2600_flag (c : Int) (h1 : 1 ≤ c) (h2 : c ≤ 2) :
    pyGet KEI2600B.init.safety (c - 1) = some 0 := by
  interval_cases c <;> decide

/-! ## Claim theorems -/

/-- C1: on both interlocked wrappers (KEI2230G, 3 channels; KEI2600B, 2
channels), a source-setting call (`set_voltage` or `set_current`) on a valid
channel whose interlock flag is not yet set returns the sentinel `-1`,
emits the non-fatal "limit not set" warning, leaves the state unchanged and
performs no transport write (for ANY transport schedule, since no write is
even attempted). -/
theorem C1_unarmed_source_rejected :
    (∀ (tok : Nat → Bool) (s : KEI2230G) (c : Int) (v : Rat) (u : String),
      1 ≤ c → c ≤ 3 → pyGet s.safety (c - 1) = some 0 →
      KEI2230G.set_voltage tok s c v u
          = ⟨.ok (.pyInt (-1)), s, [], [KEI2230G.warnMsg]⟩ ∧
        KEI2230G.set_current tok s c v u
          = ⟨.ok (.pyInt (-1)), s, [], [KEI2230G.warnMsg]⟩) ∧
    (∀ (tok : Nat → Bool) (s : KEI2600B) (c : Int) (v : Rat),
      1 ≤ c → c ≤ 2 → pyGet s.safety (c - 1) = some 0 →
      KEI2600B.set_voltage tok s c v
          = ⟨.ok (.pyInt (-1)), s, [], [KEI2600B.warnMsg]⟩ ∧
        KEI2600B.set_current tok s c v
          = ⟨.ok (.pyInt (-1)), s, [], [KEI2600B.warnMsg]⟩) := by
  constructor
  · intro tok s c v u _ _ h
    exact ⟨KEI2230G.set_voltage_unarmed_2230 tok s c v u h,
      KEI2230G.set_current_unarmed_2230 tok s c v u h⟩
  · intro tok s c v _ _ h
    exact ⟨KEI2600B.set_voltage_unarmed_2600 tok s c v h,
      KEI2600B.set_current_unarmed_2600 tok s c v h⟩

/-- Witness for C1: channel 1 of each freshly constructed wrapper. -/
theorem C1_witness :
    KEI2230G.set_voltage tokAll KEI2230G.init 1 5 "mV"
        = ⟨.ok (.pyInt (-1)), KEI2230G.init, [], [KEI2230G.warnMsg]⟩ ∧
      KEI2600B.set_voltage tokAll KEI2600B.init 1 5
        = ⟨.ok (.pyInt (-1)), KEI2600B.init, [], [KEI2600B.warnMsg]⟩ :=
  ⟨(C1_unarmed_source_rejected.1 tokAll KEI2230G.init 1 5 "mV"
      (by decide) (by decide) (by decide)).1,
    (C1_unarmed_source_rejected.2 tokAll KEI2600B.init 1 5
      (by decide) (by decide) (by decide)).1⟩

/-- C4: a limit-setting call on channel `c` leaves the interlock flag of
every other valid channel `c'` untouched, on both interlocked wrappers,
whatever the prior state and transport behaviour. -/
theorem C4_limit_only_changes_own_flag :
    (∀ (tok : Nat → Bool) (s : KEI2230G) (c c' : Int) (v : Rat),
      1 ≤ c → c ≤ 3 → 1 ≤ c' → c' ≤ 3 → c ≠ c' →
      pyGet (KEI2230G.set_voltage_limit tok s c v).state.safety (c' - 1)
        = pyGet s.safety (c' - 1)) ∧
    (∀ (tok : Nat → Bool) (s : KEI2600B) (c c' : Int) (vl cl : Rat),
      1 ≤ c → c ≤ 2 → 1 ≤ c' → c' ≤ 2 → c ≠ c' →
      pyGet (KEI2600B.set_limit tok s c vl cl).state.safety (c' - 1)
        = pyGet s.safety (c' - 1)) := by
  constructor
  · intro tok s c c' v hc1 hc3 hc'1 hc'3 hne
    rcases KEI2230G.set_voltage_limit_cases tok s c v with ⟨hst, _⟩ | ⟨hp, _⟩
    · rw [hst]
    · exact pyGet_pySet_ne (by omega) (by omega) (by omega) hp
  · intro tok s c c' vl cl hc1 hc2 hc'1 hc'2 hne
    rcases KEI2600B.set_limit_cases tok s c vl cl with ⟨hst, _⟩ | ⟨hp, _⟩
    · rw [hst]
    · exact pyGet_pySet_ne (by omega) (by omega) (by omega) hp

/-- Witness for C4: arming channel 1 from the initial state leaves channel
2's flag (still 0) unchanged on both wrappers. -/
theorem C4_witness :
    pyGet (KEI2230G.set_voltage_limit tokAll KEI2230G.init 1 5).state.safety 1
        = pyGet KEI2230G.init.safety 1 ∧
      pyGet (KEI2600B.set_limit tokAll KEI2600B.init 1 5 5).state.safety 1
        = pyGet KEI2600B.init.safety 1 :=
  ⟨C4_limit_only_changes_own_flag.1 tokAll KEI2230G.init 1 2 5
      (by decide) (by decide) (by decide) (by decide) (by decide),
    C4_limit_only_changes_own_flag.2 tokAll KEI2600B.init 1 2 5 5
      (by decide) (by decide) (by decide) (by decide) (by decide)⟩

/-- C5: `set_output_state` is not gated by the interlock: on every wrapper
it sends its output-state command and returns `None` (never the `-1`
rejection sentinel), for every state — i.e. regardless of which channels
are armed.  (On the KEI2230G the source method takes no channel argument;
on the KEI2600B and AFG3000 it takes the channel, and for the KEI2600B the
channel must resolve in `ch_map`, i.e. be 1 or 2.) -/
theorem C5_output_state_ungated :
    (∀ (s : KEI2230G) (o : String),
      KEI2230G.set_output_state tokAll s o
        = ⟨.ok .pyNone, s, ["OUTP " ++ o], []⟩) ∧
    (∀ (s : KEI2600B) (c : Int) (o m : String),
      KEI2600B.ch_map c = some m →
      KEI2600B.set_output_state tokAll s c o
        = ⟨.ok .pyNone, s,
            ["smu" ++ m ++ ".source.output=" ++ ("smu" ++ m) ++ ".OUTPUT_" ++ o],
            []⟩) ∧
    (∀ (s : AFG3000) (c : Int) (o : String),
      AFG3000.set_output_state tokAll s c o
        = ⟨.ok .pyNone, s, ["OUTPUT" ++ toString c ++ ":STATE " ++ o], []⟩) := by
  refine ⟨?_, ?_, ?_⟩
  · intro s o
    simp [KEI2230G.set_output_state, sendAll_tokAll]
  · intro s c o m hm
    simp [KEI2600B.set_output_state, hm, sendAll_tokAll]
  · intro s c o
    exact AFG3000.set_output_state_tokAll s c o

/-- Witness for C5: an entirely unarmed KEI2600B still turns channel 1's
output on. -/
theorem C5_witness :
    KEI2600B.set_output_state tokAll KEI2600B.init 1 "ON"
      = ⟨.ok .pyNone, KEI2600B.init,
          ["smu" ++ "a" ++ ".source.output=" ++ ("smu" ++ "a") ++ ".OUTPUT_" ++ "ON"],
          []⟩ :=
  C5_output_state_ungated.2.1 KEI2600B.init 1 "ON" "a" (by decide)

/-- C2: the interlock flag invariant, on both interlocked wrappers.
(1) At construction all flags are 0.  (2,3) If a limit-setting call raises
(transport failure on either write, or bad index), the whole state — in
particular the flag — is unchanged, so the flag is set only after the limit
commands were successfully sent.  (4,5) Running ANY sequence of method
calls (any arguments on valid channels, any transport behaviour) from a
fresh object, channel `c`'s flag is 1 in the final state IF AND ONLY IF
some call of the sequence successfully issued the limit-setting operation
for `c`.  The "if" direction subsumes permanence and idempotence (no later
call, including a second limit call, ever clears the flag); the "only if"
direction says nothing else ever sets it. -/
theorem C2_armed_iff_limit_successfully_issued :
    (KEI2230G.init.safety = [0, 0, 0] ∧ KEI2600B.init.safety = [0, 0]) ∧
    (∀ (tok : Nat → Bool) (s : KEI2230G) (c : Int) (v : Rat) (e : PyExc),
      (KEI2230G.set_voltage_limit tok s c v).result = .exc e →
      (KEI2230G.set_voltage_limit tok s c v).state = s) ∧
    (∀ (tok : Nat → Bool) (s : KEI2600B) (c : Int) (vl cl : Rat) (e : PyExc),
      (KEI2600B.set_limit tok s c vl cl).result = .exc e →
      (KEI2600B.set_limit tok s c vl cl).state = s) ∧
    (∀ (c : Int) (ops : List Op2230), 1 ≤ c → c ≤ 3 → opsValid2230 ops →
      (pyGet (run2230 KEI2230G.init ops).safety (c - 1) = some 1 ↔
        armsAlong2230 c KEI2230G.init ops = true)) ∧
    (∀ (c : Int) (ops : List Op2600), 1 ≤ c → c ≤ 2 → opsValid2600 ops →
      (pyGet (run2600 KEI2600B.init ops).safety (c - 1) = some 1 ↔
        armsAlong2600 c KEI2600B.init ops = true)) := by
  refine ⟨⟨rfl, rfl⟩, ?_, ?_, ?_, ?_⟩
  · intro tok s c v e he
    rcases KEI2230G.set_voltage_limit_cases tok s c v with ⟨hst, _⟩ | ⟨_, hres⟩
    · exact hst
    · rw [hres] at he
      exact absurd he (by simp)
  · intro tok s c vl cl e he
    rcases KEI2600B.set_limit_cases tok s c vl cl with ⟨hst, _⟩ | ⟨_, hres⟩
    · exact hst
    · rw [hres] at he
      exact absurd he (by simp)
  · intro c ops hc1 hc3 hv
    rw [run2230_armed_iff c hc1 hc3 ops KEI2230G.init hv, init2230_flag c hc1 hc3]
    simp
  · intro c ops hc1 hc2 hv
    rw [run2600_armed_iff c hc1 hc2 ops KEI2600B.init hv, init2600_flag c hc1 hc2]
    simp

/-- Witness for C2: a fresh KEI2230G run through two `set_voltage_limit`
calls on channel 1 (second call = idempotent re-arm) ends with channel 1
armed, and the arming-history predicate agrees. -/
theorem C2_witness :
    pyGet (run2230 KEI2230G.init
        [.setVoltageLimit tokAll 1 5, .setVoltageLimit tokAll 1 7]).safety (1 - 1)
      = some 1 ↔
    armsAlong2230 1 KEI2230G.init
        [.setVoltageLimit tokAll 1 5, .setVoltageLimit tokAll 1 7]
      = true :=
  C2_armed_iff_limit_successfully_issued.2.2.2.1 1
    [.setVoltageLimit tokAll 1 5, .setVoltageLimit tokAll 1 7]
    (by decide) (by decide) (by decide)

/-- C3: starting from a fresh object, one successful limit-setting call on a
valid channel `c` (all transport writes succeed), then ANY subsequent
source-setting call on `c` writes exactly the correctly formatted command
strings — containing the channel and the value — and returns success
(Python `None`, not the `-1` sentinel), leaving the state unchanged so the
same holds for every later source-setting call as well. -/
theorem C3_after_one_limit_source_succeeds :
    (∀ (c : Int) (vl v i : Rat) (u : String), 1 ≤ c → c ≤ 3 →
      (KEI2230G.set_voltage_limit tokAll KEI2230G.init c vl).result
          = .ok .pyNone ∧
      (∀ s1, s1 = (KEI2230G.set_voltage_limit tokAll KEI2230G.init c vl).state →
        KEI2230G.set_voltage tokAll s1 c v u
            = ⟨.ok .pyNone, s1,
                ["INSTrument:NSELect " ++ toString c,
                 "SOURce" ++ ":VOLTage:LEVel:IMMediate:AMPLitude "
                   ++ ratStr v ++ u], []⟩ ∧
          KEI2230G.set_current tokAll s1 c i u
            = ⟨.ok .pyNone, s1,
                ["INSTrument:NSELect " ++ toString c,
                 "SOURce" ++ ":CURRent:LEVel:IMMediate:AMPLitude "
                   ++ ratStr i ++ u], []⟩)) ∧
    (∀ (c : Int) (vl cl v i : Rat) (m : String), 1 ≤ c → c ≤ 2 →
      KEI2600B.ch_map c = some m →
      (KEI2600B.set_limit tokAll KEI2600B.init c vl cl).result = .ok .pyNone ∧
      (∀ s1, s1 = (KEI2600B.set_limit tokAll KEI2600B.init c vl cl).state →
        KEI2600B.set_voltage tokAll s1 c v
            = ⟨.ok .pyNone, s1,
                ["smu" ++ m ++ ".source.func = " ++ ("smu" ++ m) ++ ".OUTPUT_DCVOLTS",
                 "smu" ++ m ++ ".source.levelv = " ++ ratStr v,
                 "display." ++ ("smu" ++ m)
                   ++ ".measure.func = display.MEASURE_DCAMPS"], []⟩ ∧
          KEI2600B.set_current tokAll s1 c i
            = ⟨.ok .pyNone, s1,
                ["smu" ++ m ++ ".source.func = " ++ ("smu" ++ m) ++ ".OUTPUT_DCAMPS",
                 "smu" ++ m ++ ".source.leveli = " ++ ratStr i,
                 "display." ++ ("smu" ++ m)
                   ++ ".measure.func = display.MEASURE_DCVOLTS"], []⟩)) := by
  constructor
  · intro c vl v i u hc1 hc3
    interval_cases c
    · have h1 := KEI2230G.set_voltage_limit_tokAll KEI2230G.init 1 vl
        [1, 0, 0] (by decide)
      refine ⟨by rw [h1], ?_⟩
      intro s1 hs1
      rw [h1] at hs1
      subst hs1
      exact ⟨KEI2230G.set_voltage_armed_2230 ⟨[1, 0, 0]⟩ 1 v u (by decide),
        KEI2230G.set_current_armed_2230 ⟨[1, 0, 0]⟩ 1 i u (by decide)⟩
    · have h1 := KEI2230G.set_voltage_limit_tokAll KEI2230G.init 2 vl
        [0, 1, 0] (by decide)
      refine ⟨by rw [h1], ?_⟩
      intro s1 hs1
      rw [h1] at hs1
      subst hs1
      exact ⟨KEI2230G.set_voltage_armed_2230 ⟨[0, 1, 0]⟩ 2 v u (by decide),
        KEI2230G.set_current_armed_2230 ⟨[0, 1, 0]⟩ 2 i u (by decide)⟩
    · have h1 := KEI2230G.set_voltage_limit_tokAll KEI2230G.init 3 vl
        [0, 0, 1] (by decide)
      refine ⟨by rw [h1], ?_⟩
      intro s1 hs1
      rw [h1] at hs1
      subst hs1
      exact ⟨KEI2230G.set_voltage_armed_2230 ⟨[0, 0, 1]⟩ 3 v u (by decide),
        KEI2230G.set_current_armed_2230 ⟨[0, 0, 1]⟩ 3 i u (by decide)⟩
  · intro c vl cl v i m hc1 hc2 hm
    interval_cases c
    · have hma : KEI2600B.ch_map 1 = some "a" := by decide
      have hm' : m = "a" := (Option.some_inj.mp (hma.symm.trans hm)).symm
      subst hm'
      have h1 := KEI2600B.set_limit_tokAll KEI2600B.init 1 vl cl
        [1, 0] hma (by decide)
      refine ⟨by rw [h1], ?_⟩
      intro s1 hs1
      rw [h1] at hs1
      subst hs1
      exact ⟨KEI2600B.set_voltage_armed_2600 ⟨[1, 0]⟩ 1 v (by decide) hma,
        KEI2600B.set_current_armed_2600 ⟨[1, 0]⟩ 1 i (by decide) hma⟩
    · have hmb : KEI2600B.ch_map 2 = some "b" := by decide
      have hm' : m = "b" := (Option.some_inj.mp (hmb.symm.trans hm)).symm
      subst hm'
      have h1 := KEI2600B.set_limit_tokAll KEI2600B.init 2 vl cl
        [0, 1] hmb (by decide)
      refine ⟨by rw [h1], ?_⟩
      intro s1 hs1
      rw [h1] at hs1
      subst hs1
      exact ⟨KEI2600B.set_voltage_armed_2600 ⟨[0, 1]⟩ 2 v (by decide) hmb,
        KEI2600B.set_current_armed_2600 ⟨[0, 1]⟩ 2 i (by decide) hmb⟩

/-- Witness for C3: channel 1 of a fresh KEI2600B, limit 1 then voltage 5. -/
theorem C3_witness :
    KEI2600B.set_voltage tokAll
        (KEI2600B.set_limit tokAll KEI2600B.init 1 1 1).state 1 5
      = ⟨.ok .pyNone, (KEI2600B.set_limit tokAll KEI2600B.init 1 1 1).state,
          ["smu" ++ "a" ++ ".source.func = " ++ ("smu" ++ "a") ++ ".OUTPUT_DCVOLTS",
           "smu" ++ "a" ++ ".source.levelv = " ++ ratStr 5,
           "display." ++ ("smu" ++ "a")
             ++ ".measure.func = display.MEASURE_DCAMPS"], []⟩ :=
  ((C3_after_one_limit_source_succeeds.2 1 1 1 5 5 "a"
      (by decide) (by decide) (by decide)).2 _ rfl).1

/-- C10: on the KEI2230G the only operation that arms a channel is
`set_voltage_limit` — the source setters and `set_output_state` never touch
the `safety` list — and the flag it sets also gates `set_current`: after one
successful `set_voltage_limit(c, vl)` on a fresh object (whose transport
trace contains only the voltage-limit command, never a current limit),
`set_current(c, i)` is permitted and sends its two commands. -/
theorem C10_voltage_limit_gates_current :
    (∀ (tok : Nat → Bool) (s : KEI2230G) (c : Int) (v : Rat) (u o : String),
      (KEI2230G.set_voltage tok s c v u).state = s ∧
      (KEI2230G.set_current tok s c v u).state = s ∧
      (KEI2230G.set_output_state tok s o).state = s) ∧
    (∀ (c : Int) (vl i : Rat) (u : String), 1 ≤ c → c ≤ 3 →
      (KEI2230G.set_voltage_limit tokAll KEI2230G.init c vl).sent
          = ["INSTrument:NSELect " ++ toString c,
             "SOURce:VOLTage:LIMit:LEVel " ++ ratStr vl] ∧
      (∀ s1, s1 = (KEI2230G.set_voltage_limit tokAll KEI2230G.init c vl).state →
        KEI2230G.set_current tokAll s1 c i u
          = ⟨.ok .pyNone, s1,
              ["INSTrument:NSELect " ++ toString c,
               "SOURce" ++ ":CURRent:LEVel:IMMediate:AMPLitude "
                 ++ ratStr i ++ u], []⟩)) := by
  constructor
  · intro tok s c v u o
    exact ⟨KEI2230G.set_voltage_state_2230 tok s c v u,
      KEI2230G.set_current_state_2230 tok s c v u,
      KEI2230G.set_output_state_state_2230 tok s o⟩
  · intro c vl i u hc1 hc3
    interval_cases c
    · have h1 := KEI2230G.set_voltage_limit_tokAll KEI2230G.init 1 vl
        [1, 0, 0] (by decide)
      refine ⟨by rw [h1], ?_⟩
      intro s1 hs1
      rw [h1] at hs1
      subst hs1
      exact KEI2230G.set_current_armed_2230 ⟨[1, 0, 0]⟩ 1 i u (by decide)
    · have h1 := KEI2230G.set_voltage_limit_tokAll KEI2230G.init 2 vl
        [0, 1, 0] (by decide)
      refine ⟨by rw [h1], ?_⟩
      intro s1 hs1
      rw [h1] at hs1
      subst hs1
      exact KEI2230G.set_current_armed_2230 ⟨[0, 1, 0]⟩ 2 i u (by decide)
    · have h1 := KEI2230G.set_voltage_limit_tokAll KEI2230G.init 3 vl
        [0, 0, 1] (by decide)
      refine ⟨by rw [h1], ?_⟩
      intro s1 hs1
      rw [h1] at hs1
      subst hs1
      exact KEI2230G.set_current_armed_2230 ⟨[0, 0, 1]⟩ 3 i u (by decide)

/-- Witness for C10: fresh KEI2230G, voltage limit 5 on channel 1, then
`set_current(1, 2, 'mA')` is permitted and sends its commands. -/
theorem C10_witness :
    KEI2230G.set_current tokAll
        (KEI2230G.set_voltage_limit tokAll KEI2230G.init 1 5).state 1 2 "mA"
      = ⟨.ok .pyNone, (KEI2230G.set_voltage_limit tokAll KEI2230G.init 1 5).state,
          ["INSTrument:NSELect " ++ toString 1,
           "SOURce" ++ ":CURRent:LEVel:IMMediate:AMPLitude "
             ++ ratStr 2 ++ "mA"], []⟩ :=
  (C10_voltage_limit_gates_current.2 1 5 2 "mA" (by decide) (by decide)).2 _ rfl

/-- Python index `-1` (as produced by `channel - 1` for `channel = 0`) reads
the LAST element of a 3-element list. -/
theorem pyGet_len3_neg_one {α : Type} (xs : List α) (hl : xs.length = 3) :
    pyGet xs (0 - 1) = xs.get? 2 := by
  unfold pyGet
  rw [hl, (by decide : pyIdx 3 (0 - 1) = some 2), option_some_bind]

/-- Python index `-1` reads the LAST element of a 2-element list. -/
theorem pyGet_len2_neg_one {α : Type} (xs : List α) (hl : xs.length = 2) :
    pyGet xs (0 - 1) = xs.get? 1 := by
  unfold pyGet
  rw [hl, (by decide : pyIdx 2 (0 - 1) = some 1), option_some_bind]

/-- C6: evaluation of the code at the out-of-range inputs the claim is
about.  Channel 0 passed to the limit-setting operation is NOT reported:
the call succeeds (returns `None`, no warning) and silently sets the LAST
channel's flag (`safety[-1]`), a corrupted array write.  Channel N+1 = 4
passed to `set_voltage` raises an uncaught `IndexError` (a crash), with no
warning emitted.  So no gated operation turns an out-of-range channel into
an explicit reported error, contradicting the claim. -/
theorem C6_out_of_range_not_reported :
    (KEI2230G.set_voltage_limit tokAll KEI2230G.init 0 5).result = .ok .pyNone ∧
    (KEI2230G.set_voltage_limit tokAll KEI2230G.init 0 5).state.safety
        = [0, 0, 1] ∧
    (KEI2230G.set_voltage_limit tokAll KEI2230G.init 0 5).warns = [] ∧
    (KEI2230G.set_voltage tokAll KEI2230G.init 4 5 "mV").result
        = .exc .indexError ∧
    (KEI2230G.set_voltage tokAll KEI2230G.init 4 5 "mV").warns = [] := by
  decide

/-- Counterexample for C7: the function generator does NOT compose the
interlock: a freshly constructed AFG3000 — on which no limit-setting
operation was ever invoked, and which holds no interlock flag array at
all — accepts `set_output_vpp(1, 1)` and writes the amplitude command.
Under the claimed identical composition this call would have been rejected
with `-1` and no write, as on the two interlocked wrappers. -/
theorem C7_counterexample_afg_not_gated :
    AFG3000.set_output_vpp tokAll AFG3000.init 1 1 0 3
      = ⟨.ok (.writeResult 0), AFG3000.init,
          ["SOURce" ++ toString 1 ++ ":VOLTage:LEVel:IMMediate:AMPLitude "
            ++ ratStr 1 ++ "VPP"], []⟩ := by
  decide

/-- C7 (amended): only the power supply (KEI2230G) and the source-measure
unit (KEI2600B) compose the interlock — a flag array sized to the channel
count (3 resp. 2), all flags clear at construction, a flag set by the
limit-setting operation and consulted before a source-setting operation is
permitted.  The function generator (AFG3000) holds no interlock state at
all: its source-setting operations are guarded only by a numeric range
check on the value, and succeed on a fresh object with no arming. -/
theorem C7_amended_interlock_composition :
    (∀ s : AFG3000, s = AFG3000.init) ∧
    (KEI2230G.init.safety = [0, 0, 0] ∧ KEI2600B.init.safety = [0, 0]) ∧
    (∀ (tok : Nat → Bool) (s : KEI2230G) (c : Int) (v : Rat) (u : String),
      1 ≤ c → c ≤ 3 → pyGet s.safety (c - 1) = some 0 →
      (KEI2230G.set_voltage tok s c v u).result = .ok (.pyInt (-1)) ∧
      (KEI2230G.set_voltage tok s c v u).sent = []) ∧
    (∀ (tok : Nat → Bool) (s : KEI2600B) (c : Int) (v : Rat),
      1 ≤ c → c ≤ 2 → pyGet s.safety (c - 1) = some 0 →
      (KEI2600B.set_voltage tok s c v).result = .ok (.pyInt (-1)) ∧
      (KEI2600B.set_voltage tok s c v).sent = []) ∧
    (∀ (c : Int) (v : Rat), 1 ≤ c → c ≤ 3 →
      pyGet (KEI2230G.set_voltage_limit tokAll KEI2230G.init c v).state.safety
          (c - 1) = some 1) ∧
    (∀ (c : Int) (vl cl : Rat), 1 ≤ c → c ≤ 2 →
      pyGet (KEI2600B.set_limit tokAll KEI2600B.init c vl cl).state.safety
          (c - 1) = some 1) ∧
    (∀ (c : Int) (a minV maxV : Rat),
      (a > maxV ∨ a < minV →
        AFG3000.set_output_vpp tokAll AFG3000.init c a minV maxV
          = ⟨.ok (.pyInt (-1)), AFG3000.init, [], [AFG3000.vppWarnMsg]⟩) ∧
      (minV ≤ a → a ≤ maxV →
        (AFG3000.set_output_vpp tokAll AFG3000.init c a minV maxV).sent
          = ["SOURce" ++ toString c ++ ":VOLTage:LEVel:IMMediate:AMPLitude "
              ++ ratStr a ++ "VPP"])) := by
  refine ⟨fun s => rfl, ⟨rfl, rfl⟩, ?_, ?_, ?_, ?_, ?_⟩
  · intro tok s c v u _ _ h
    rw [KEI2230G.set_voltage_unarmed_2230 tok s c v u h]
    exact ⟨rfl, rfl⟩
  · intro tok s c v _ _ h
    rw [KEI2600B.set_voltage_unarmed_2600 tok s c v h]
    exact ⟨rfl, rfl⟩
  · intro c v hc1 hc3
    interval_cases c
    · rw [KEI2230G.set_voltage_limit_tokAll KEI2230G.init 1 v [1, 0, 0] (by decide)]
      show pyGet ([1, 0, 0] : List Nat) (1 - 1) = some 1
      decide
    · rw [KEI2230G.set_voltage_limit_tokAll KEI2230G.init 2 v [0, 1, 0] (by decide)]
      show pyGet ([0, 1, 0] : List Nat) (2 - 1) = some 1
      decide
    · rw [KEI2230G.set_voltage_limit_tokAll KEI2230G.init 3 v [0, 0, 1] (by decide)]
      show pyGet ([0, 0, 1] : List Nat) (3 - 1) = some 1
      decide
  · intro c vl cl hc1 hc2
    interval_cases c
    · rw [@KEI2600B.set_limit_tokAll KEI2600B.init 1 vl cl "a" [1, 0]
        (by decide) (by decide)]
      show pyGet ([1, 0] : List Nat) (1 - 1) = some 1
      decide
    · rw [@KEI2600B.set_limit_tokAll KEI2600B.init 2 vl cl "b" [0, 1]
        (by decide) (by decide)]
      show pyGet ([0, 1] : List Nat) (2 - 1) = some 1
      decide
  · intro c a minV maxV
    constructor
    · intro h
      exact AFG3000.set_output_vpp_rejected tokAll AFG3000.init c a minV maxV h
    · intro h1 h2
      rw [AFG3000.set_output_vpp_sent AFG3000.init c a minV maxV h1 h2]

/-- Witness for C7's amended claim: channel 1 of a fresh KEI2600B is armed
after `set_limit(1, 1, 1)`. -/
theorem C7_amended_witness :
    pyGet (KEI2600B.set_limit tokAll KEI2600B.init 1 1 1).state.safety (1 - 1)
      = some 1 :=
  C7_amended_interlock_composition.2.2.2.2.2.1 1 1 1 (by decide) (by decide)

/-- C8: the AFG3000 range guards.  For every channel, state, transport and
bounds (`minV`/`maxV` default to 0 and 2.5 in the source), a value strictly
outside the closed interval `[minV, maxV]` makes `set_output_vpp`
(resp. `set_output_offset`) return `-1` with its warning and perform no
transport write; a value inside the interval makes it send exactly one
formatted command. -/
theorem C8_afg_range_guard :
    ∀ (tok : Nat → Bool) (s : AFG3000) (c : Int) (a minV maxV : Rat),
      (a > maxV ∨ a < minV →
        AFG3000.set_output_vpp tok s c a minV maxV
            = ⟨.ok (.pyInt (-1)), s, [], [AFG3000.vppWarnMsg]⟩ ∧
          AFG3000.set_output_offset tok s c a minV maxV
            = ⟨.ok (.pyInt (-1)), s, [], [AFG3000.offsetWarnMsg]⟩) ∧
      (minV ≤ a → a ≤ maxV →
        AFG3000.set_output_vpp tokAll s c a minV maxV
            = ⟨.ok (.writeResult 0), s,
                ["SOURce" ++ toString c ++ ":VOLTage:LEVel:IMMediate:AMPLitude "
                  ++ ratStr a ++ "VPP"], []⟩ ∧
          AFG3000.set_output_offset tokAll s c a minV maxV
            = ⟨.ok (.writeResult 0), s,
                ["SOURce" ++ toString c ++ ":VOLTage:LEVel:IMMediate:OFFSet "
                  ++ ratStr a ++ "V"], []⟩) := by
  intro tok s c a minV maxV
  constructor
  · intro h
    exact ⟨AFG3000.set_output_vpp_rejected tok s c a minV maxV h,
      AFG3000.set_output_offset_rejected tok s c a minV maxV h⟩
  · intro h1 h2
    exact ⟨AFG3000.set_output_vpp_sent s c a minV maxV h1 h2,
      AFG3000.set_output_offset_sent s c a minV maxV h1 h2⟩

/-- Witness for C8: amplitude 7 outside `[0, 2]` is rejected; amplitude 1
inside `[0, 2]` is sent. -/
theorem C8_witness :
    AFG3000.set_output_vpp tokAll AFG3000.init 1 7 0 2
        = ⟨.ok (.pyInt (-1)), AFG3000.init, [], [AFG3000.vppWarnMsg]⟩ ∧
      AFG3000.set_output_vpp tokAll AFG3000.init 1 1 0 2
        = ⟨.ok (.writeResult 0), AFG3000.init,
            ["SOURce" ++ toString 1 ++ ":VOLTage:LEVel:IMMediate:AMPLitude "
              ++ ratStr 1 ++ "VPP"], []⟩ :=
  ⟨((C8_afg_range_guard tokAll AFG3000.init 1 7 0 2).1 (by decide)).1,
    ((C8_afg_range_guard tokAll AFG3000.init 1 1 0 2).2 (by decide) (by decide)).1⟩

/-- Counterexample for C9: passing channel 0 to a gated source-setting
operation IS reported as an error in one reachable case: on a KEI2600B
whose highest channel (2) has been armed, `set_voltage(0, 1)` passes the
interlock guard (which read `safety[-1]`, channel 2's flag) but then
raises an uncaught `KeyError` at the `ch_map[0]` lookup, instead of being
"allowed". -/
theorem C9_counterexample_keyerror :
    (KEI2600B.set_voltage tokAll
        (KEI2600B.set_limit tokAll KEI2600B.init 2 1 1).state 0 1).result
      = .exc .keyError := by
  decide

/-- C9 (amended): for channel 0 the guard of every gated source-setting
operation reads the interlock array at Python index `-1`, i.e. the LAST
channel's flag, and no out-of-range error is reported by the guard.  When
the last channel is unarmed, `set_voltage(0, v)` / `set_current(0, v)` on
either interlocked wrapper are rejected with `-1` and the limit warning.
When it is armed, the KEI2230G proceeds and sends its source commands with
channel number 0, while the KEI2600B then raises a `KeyError` at the
`ch_map[0]` lookup. -/
theorem C9_amended_channel_zero_reads_last_flag :
    (∀ (tok : Nat → Bool) (s : KEI2230G) (v : Rat) (u : String),
      s.safety.length = 3 → s.safety.get? 2 = some 0 →
      KEI2230G.set_voltage tok s 0 v u
          = ⟨.ok (.pyInt (-1)), s, [], [KEI2230G.warnMsg]⟩ ∧
        KEI2230G.set_current tok s 0 v u
          = ⟨.ok (.pyInt (-1)), s, [], [KEI2230G.warnMsg]⟩) ∧
    (∀ (s : KEI2230G) (v : Rat) (u : String),
      s.safety.length = 3 → s.safety.get? 2 = some 1 →
      KEI2230G.set_voltage tokAll s 0 v u
        = ⟨.ok .pyNone, s,
            ["INSTrument:NSELect " ++ toString (0 : Int),
             "SOURce" ++ ":VOLTage:LEVel:IMMediate:AMPLitude "
               ++ ratStr v ++ u], []⟩) ∧
    (∀ (tok : Nat → Bool) (s : KEI2600B) (v : Rat),
      s.safety.length = 2 →
      (s.safety.get? 1 = some 0 →
        KEI2600B.set_voltage tok s 0 v
            = ⟨.ok (.pyInt (-1)), s, [], [KEI2600B.warnMsg]⟩ ∧
          KEI2600B.set_current tok s 0 v
            = ⟨.ok (.pyInt (-1)), s, [], [KEI2600B.warnMsg]⟩) ∧
      (s.safety.get? 1 = some 1 →
        KEI2600B.set_voltage tok s 0 v = ⟨.exc .keyError, s, [], []⟩ ∧
          KEI2600B.set_current tok s 0 v = ⟨.exc .keyError, s, [], []⟩)) := by
  refine ⟨?_, ?_, ?_⟩
  · intro tok s v u hl h
    have hpy : pyGet s.safety (0 - 1) = some 0 := by
      rw [pyGet_len3_neg_one s.safety hl]
      exact h
    exact ⟨KEI2230G.set_voltage_unarmed_2230 tok s 0 v u hpy,
      KEI2230G.set_current_unarmed_2230 tok s 0 v u hpy⟩
  · intro s v u hl h
    have hpy : pyGet s.safety (0 - 1) = some 1 := by
      rw [pyGet_len3_neg_one s.safety hl]
      exact h
    exact KEI2230G.set_voltage_armed_2230 s 0 v u hpy
  · intro tok s v hl
    constructor
    · intro h
      have hpy : pyGet s.safety (0 - 1) = some 0 := by
        rw [pyGet_len2_neg_one s.safety hl]
        exact h
      exact ⟨KEI2600B.set_voltage_unarmed_2600 tok s 0 v hpy,
        KEI2600B.set_current_unarmed_2600 tok s 0 v hpy⟩
    · intro h
      have hpy : pyGet s.safety (0 - 1) = some 1 := by
        rw [pyGet_len2_neg_one s.safety hl]
        exact h
      have hpy2 : pyGet s.safety (-1) = some 1 := by
        rw [show (-1 : Int) = 0 - 1 by decide]
        exact hpy
      have hcm : KEI2600B.ch_map 0 = none := by decide
      constructor
      · simp [KEI2600B.set_voltage, hpy2, hcm]
      · simp [KEI2600B.set_current, hpy2, hcm]

/-- Witness for C9's amended claim: a KEI2230G with only channel 3 armed
accepts `set_voltage(0, 5, 'mV')` and writes the commands with channel 0. -/
theorem C9_amended_witness :
    KEI2230G.set_voltage tokAll ⟨[0, 0, 1]⟩ 0 5 "mV"
      = ⟨.ok .pyNone, ⟨[0, 0, 1]⟩,
          ["INSTrument:NSELect " ++ toString (0 : Int),
           "SOURce" ++ ":VOLTage:LEVel:IMMediate:AMPLitude "
             ++ ratStr 5 ++ "mV"], []⟩ :=
  C9_amended_channel_zero_reads_last_flag.2.1 ⟨[0, 0, 1]⟩ 5 "mV"
    (by decide) (by decide)
